import Mathlib

/-!
Shallow embedding of `archivebox/api/models.py` (the API credential record
type `APIToken` and the webhook registration record type `OutboundWebhook`),
together with proofs about its credential-lifecycle and ABID-declaration
behaviour.

Modelling conventions: instants are microseconds since the Unix epoch (UTC),
UUID values are naturals, and Python attribute lookup is modelled as
`Option (Option Value)` where the outer `none` is an `AttributeError` and the
inner `none` is the Python value `None`.
-/

/-- Microseconds per second. -/
def usecPerSec : Int := 1000000

/-- Microseconds per day. -/
def usecPerDay : Int := 86400000000

/-- Civil calendar date `(year, month, day)` of a day number (days since
1970-01-01), the standard proleptic-Gregorian conversion underlying Python
`datetime`. -/
def civilFromDays (z : Int) : Int × Int × Int :=
  let z' := z + 719468
  let era : Int := (if 0 ≤ z' then z' else z' - 146096).ediv 146097
  let doe : Int := z' - era * 146097
  let yoe : Int := (doe - doe.ediv 1460 + doe.ediv 36524 - doe.ediv 146096).ediv 365
  let y : Int := yoe + era * 400
  let doy : Int := doe - (365 * yoe + yoe.ediv 4 - yoe.ediv 100)
  let mp : Int := (5 * doy + 2).ediv 153
  let d : Int := doy - (153 * mp + 2).ediv 5 + 1
  let m : Int := mp + (if mp < 10 then 3 else -9)
  (y + (if m ≤ 2 then 1 else 0), m, d)

/-- Day number (days since 1970-01-01) of a civil calendar date, inverse of
`civilFromDays`. -/
def daysFromCivil (y m d : Int) : Int :=
  let y' := y - (if m ≤ 2 then 1 else 0)
  let era : Int := (if 0 ≤ y' then y' else y' - 399).ediv 400
  let yoe : Int := y' - era * 400
  let doy : Int := (153 * (m + (if 2 < m then -3 else 9)) + 2).ediv 5 + d - 1
  let doe : Int := yoe * 365 + yoe.ediv 4 - yoe.ediv 100 + doy
  era * 146097 + doe - 719468

/-- Zero-padding of a natural to a fixed width, as Python `%02d`-style
formatting inside `datetime.isoformat`. -/
def padZ (width : Nat) (n : Nat) : String :=
  let s := toString n
  String.mk (List.replicate (width - s.length) '0') ++ s

/-- Rendering of an instant (microseconds since the Unix epoch, UTC) the way
Python `datetime.isoformat()` renders an aware UTC datetime:
`YYYY-MM-DDTHH:MM:SS[.ffffff]+00:00`, the fractional part omitted when the
microsecond component is zero. -/
def isoformat (usec : Int) : String :=
  let day := usec.ediv usecPerDay
  let rem := (usec.emod usecPerDay).toNat
  let ymd := civilFromDays day
  let micro := rem % 1000000
  let totalSec := rem / 1000000
  padZ 4 ymd.1.toNat ++ "-" ++ padZ 2 ymd.2.1.toNat ++ "-" ++ padZ 2 ymd.2.2.toNat ++
    "T" ++ padZ 2 (totalSec / 3600) ++ ":" ++ padZ 2 (totalSec / 60 % 60) ++ ":" ++
    padZ 2 (totalSec % 60) ++
    (if micro = 0 then "" else "." ++ padZ 6 micro) ++ "+00:00"

/-- The instant `n` calendar years after `usec`: same month, day and time of
day with the year increased by `n`. Used to state the spec reading of
"now + 100 years" against the code's fixed 36500-day offset. -/
def addCalendarYears (usec : Int) (n : Int) : Int :=
  let ymd := civilFromDays (usec.ediv usecPerDay)
  daysFromCivil (ymd.1 + n) ymd.2.1 ymd.2.2 * usecPerDay + usec.emod usecPerDay

/-- A Python attribute value as it occurs on the records of this module:
a numeric key, a string, or a datetime instant. -/
inductive Value where
  | vNat : Nat → Value
  | vStr : String → Value
  | vInstant : Int → Value
deriving DecidableEq

/-- Python `str()` of a `Value` (instants rendered via `isoformat`). -/
def valueText : Value → String
  | .vNat n => toString n
  | .vStr s => s
  | .vInstant i => isoformat i

/-- The `APIToken` record, with exactly the fields declared in the source:
`id` is the primary key (`default=uuid.uuid4`, non-null), `uuid` is a
nullable secondary UUID column, `abid` the stored `ABIDField` value,
`created_by_id` the issuing principal's key (`created_by` foreign key),
`token` the secret, `created` the auto-set creation instant and `expires`
the optional expiry instant. -/
structure APIToken where
  id : Nat
  uuid : Option Nat
  abid : String
  created_by_id : Nat
  token : String
  created : Int
  expires : Option Int
deriving DecidableEq

/-- The `OutboundWebhook` record, with the fields declared in the source and
the `WebhookBase` fields whose help texts the source overrides (`name`,
`signal`, `ref`, `endpoint`; `created` per the declared timestamp source).
Note `id` is declared `null=True` and is NOT the primary key: `uuid`
(`primary_key=True`, `default=uuid.uuid4`) is. -/
structure OutboundWebhook where
  id : Option Nat
  uuid : Nat
  abid : String
  name : String
  signal : String
  ref : String
  endpoint : String
  created : Int
deriving DecidableEq

/-- Attribute lookup on an `APIToken` instance: outer `none` models Python
`AttributeError`, `some none` an attribute holding Python `None`. The
attributes are the model's declared fields (with the foreign key projected to
its key, as Django exposes `created_by_id`). In particular there is no `user`
attribute: the principal foreign key is named `created_by`. Modelled from the
spec: the `ABIDModel` base class (`abid_utils`, not part of this fragment)
contributes, per the RecordDescriptor contract of the spec, only the type tag
and the four source specifiers, and per the spec data model the credential's
attributes are the owning-principal reference, token, creation instant and
optional expiry — no `user` attribute. -/
def APIToken.getattr (t : APIToken) (attr : String) : Option (Option Value) :=
  match attr with
  | "id" => some (some (.vNat t.id))
  | "pk" => some (some (.vNat t.id))
  | "uuid" => some (t.uuid.map .vNat)
  | "abid" => some (some (.vStr t.abid))
  | "created_by" => some (some (.vNat t.created_by_id))
  | "created_by_id" => some (some (.vNat t.created_by_id))
  | "token" => some (some (.vStr t.token))
  | "created" => some (some (.vInstant t.created))
  | "expires" => some (t.expires.map .vInstant)
  | _ => none

/-- Attribute lookup on an `OutboundWebhook` instance, conventions as for
`APIToken.getattr`; `id` is nullable, `uuid` is the primary key. -/
def OutboundWebhook.getattr (w : OutboundWebhook) (attr : String) : Option (Option Value) :=
  match attr with
  | "id" => some (w.id.map .vNat)
  | "pk" => some (some (.vNat w.uuid))
  | "uuid" => some (some (.vNat w.uuid))
  | "abid" => some (some (.vStr w.abid))
  | "name" => some (some (.vStr w.name))
  | "signal" => some (some (.vStr w.signal))
  | "ref" => some (some (.vStr w.ref))
  | "endpoint" => some (some (.vStr w.endpoint))
  | "created" => some (some (.vInstant w.created))
  | _ => none

/-- Resolution of a declarative source specifier of the form `"self.attr"`
against a record's attribute lookup. Modelled from the spec: the
AttributePathResolver (`abid_utils`, not part of this fragment) takes an
attribute path rooted at the record (e.g. `"self.created"`) and returns the
value found by traversing it, failing when a segment is absent. -/
def resolveSrc (lookup : String → Option (Option Value)) (path : String) :
    Option (Option Value) :=
  match path.toList with
  | 's' :: 'e' :: 'l' :: 'f' :: '.' :: rest => lookup (String.mk rest)
  | _ => none

/-- The class attribute `abid_prefix` of `APIToken` in the source. -/
def APIToken.abid_tag : String := "apt_"

/-- The class attribute `abid_ts_src` of `APIToken`. -/
def APIToken.abid_ts_src : String := "self.created"

/-- The class attribute `abid_uri_src` of `APIToken`. -/
def APIToken.abid_uri_src : String := "self.token"

/-- The class attribute `abid_subtype_src` of `APIToken`. -/
def APIToken.abid_subtype_src : String := "self.created_by_id"

/-- The class attribute `abid_rand_src` of `APIToken`. -/
def APIToken.abid_rand_src : String := "self.id"

/-- The class attribute `abid_prefix` of `OutboundWebhook` in the source. -/
def OutboundWebhook.abid_tag : String := "whk_"

/-- The class attribute `abid_ts_src` of `OutboundWebhook`. -/
def OutboundWebhook.abid_ts_src : String := "self.created"

/-- The class attribute `abid_uri_src` of `OutboundWebhook`. -/
def OutboundWebhook.abid_uri_src : String := "self.endpoint"

/-- The class attribute `abid_subtype_src` of `OutboundWebhook`. -/
def OutboundWebhook.abid_subtype_src : String := "self.ref"

/-- The class attribute `abid_rand_src` of `OutboundWebhook`. -/
def OutboundWebhook.abid_rand_src : String := "self.id"

/-- The primary storage key of an `APIToken`: `id` (`primary_key=True`). -/
def APIToken.pk (t : APIToken) : Nat := t.id

/-- The primary storage key of an `OutboundWebhook`: `uuid`
(`primary_key=True`), not `id`. -/
def OutboundWebhook.pk (w : OutboundWebhook) : Nat := w.uuid

/-- `APIToken.is_valid` from the source: `for_date` defaults to the ambient
current time `now` when not supplied (a datetime is always truthy in Python,
so `for_date or timezone.now()` is exactly this default); returns `False`
when an expiry is set (a non-`None` datetime is always truthy) and lies
strictly before `for_date`, else `True`. -/
def APIToken.is_valid (t : APIToken) (for_date : Option Int) (now : Int) : Bool :=
  let d := match for_date with
    | none => now
    | some x => x
  match t.expires with
  | some e => if e < d then false else true
  | none => true

/-- The instant whose rendering `expires_as_iso8601` returns: the stored
expiry if set, otherwise `timezone.now() + timedelta(days=365 * 100)`. -/
def expiryDateInstant (expires : Option Int) (now : Int) : Int :=
  match expires with
  | some e => e
  | none => now + 36500 * usecPerDay

/-- `APIToken.expires_as_iso8601` from the source, with the ambient current
time `now` explicit. -/
def APIToken.expires_as_iso8601 (t : APIToken) (now : Int) : String :=
  isoformat (expiryDateInstant t.expires now)

/-- Lowercase hexadecimal digit character for a value below 16, as used by
Python `bytes.hex` inside `secrets.token_hex`. -/
def hexDigit (n : Nat) : Char :=
  if n < 10 then Char.ofNat (48 + n) else Char.ofNat (87 + n)

/-- Hex rendering of a byte string: two lowercase hex digits per byte. -/
def bytesToHex : List Nat → List Char
  | [] => []
  | b :: bs => hexDigit (b / 16) :: hexDigit (b % 16) :: bytesToHex bs

/-- Python `secrets.token_hex` applied to the drawn byte string. -/
def token_hex (bytes : List Nat) : String :=
  String.mk (bytesToHex bytes)

/-- `generate_secret_token` from the source: `secrets.token_hex(16)`, with
the 16 bytes drawn from the CSPRNG passed explicitly. -/
def generate_secret_token (randomBytes : List Nat) : String :=
  token_hex randomBytes

/-- The sixteen lowercase hexadecimal characters. -/
def hexAlphabet : List Char := "0123456789abcdef".toList

/-- Insertion of a token value into the stored column under the storage
layer's uniqueness constraint (`token = models.CharField(..., unique=True)`):
the insert is rejected when an equal value is already stored. -/
def insertToken (store : List String) (tok : String) : Option (List String) :=
  if tok ∈ store then none else some (tok :: store)

/-- Invariant of the stored token column: pairwise-distinct values, each of
length exactly 32. -/
def TokenStoreOk (store : List String) : Prop :=
  store.Nodup ∧ ∀ s ∈ store, s.length = 32

/-- `APIToken.__json__` from the source, as an association list (every value
in the source dict is a string). `str(self.ABID)` is modelled as the record's
stored ABID string: the `ABID` accessor of the `ABIDModel` base
(`abid_utils`, not part of this fragment) is, per the spec, the record's own
lazily computed and thereafter immutable identifier value. -/
def APIToken.json (t : APIToken) (now : Int) : List (String × String) :=
  [("TYPE", "APIToken"),
   ("id", toString t.pk),
   ("abid", t.abid),
   ("created_by_id", toString t.created_by_id),
   ("token", t.token),
   ("created", isoformat t.created),
   ("expires", t.expires_as_iso8601 now)]

/-- `APIToken.__repr__` from the source: the f-string interpolates
`self.user.username` and the last four token characters after an asterisk
mask. Attribute lookup failure (outer or inner `none` from `getattr`, i.e.
Python `AttributeError` on `self.user` or on `.username` of `None`) aborts
the rendering with `none`; when the lookup succeeds the looked-up value is
rendered with `valueText`. -/
def APIToken.reprStr (t : APIToken) : Option String :=
  match t.getattr "user" with
  | none => none
  | some none => none
  | some (some u) =>
      some ("<APIToken user=" ++ valueText u ++ " token=************" ++
        String.mk (t.token.toList.drop (t.token.length - 4)) ++ ">")

/-- C1: `is_valid` returns `false` if and only if an expiry is set and lies
strictly before the queried instant (the supplied `for_date`, or the current
time when none is supplied); in every other case, the absent-expiry case
included, it returns `true`, however large the queried instant is. -/
theorem is_valid_false_iff_expired (t : APIToken) (for_date : Option Int) (now : Int) :
    t.is_valid for_date now = false ↔
      ∃ e, t.expires = some e ∧ e < for_date.getD now := by
  cases for_date with
  | none =>
    cases h : t.expires with
    | none => simp [APIToken.is_valid, h]
    | some e =>
      by_cases hc : e < now <;> simp [APIToken.is_valid, h, hc]
  | some d =>
    cases h : t.expires with
    | none => simp [APIToken.is_valid, h]
    | some e =>
      by_cases hc : e < d <;> simp [APIToken.is_valid, h, hc]

/-- C8: a credential whose expiry equals the queried instant exactly is still
valid at that instant — the validity comparison is strict. -/
theorem is_valid_at_exact_expiry (t : APIToken) (e now : Int)
    (h : t.expires = some e) : t.is_valid (some e) now = true := by
  simp [APIToken.is_valid, h]

/-- Witness for C8 at a concrete credential expiring exactly at instant 5. -/
theorem is_valid_at_exact_expiry_witness :
    (⟨1, none, "apt_x", 42, "tok", 0, some 5⟩ : APIToken).is_valid (some 5) 0 = true :=
  is_valid_at_exact_expiry ⟨1, none, "apt_x", 42, "tok", 0, some 5⟩ 5 0 rfl

/-- Two hex characters are produced per byte. -/
theorem bytesToHex_length (l : List Nat) : (bytesToHex l).length = 2 * l.length := by
  induction l with
  | nil => rfl
  | cons b bs ih => simp [bytesToHex, ih]; omega

/-- A hex digit of a value below 16 lies in the hexadecimal alphabet. -/
theorem hexDigit_mem (n : Nat) (h : n < 16) : hexDigit n ∈ hexAlphabet := by
  interval_cases n <;> decide

/-- Every character of the hex rendering of a byte string lies in the
hexadecimal alphabet. -/
theorem bytesToHex_mem (l : List Nat) (hb : ∀ b ∈ l, b < 256) :
    ∀ c ∈ bytesToHex l, c ∈ hexAlphabet := by
  induction l with
  | nil => simp [bytesToHex]
  | cons b bs ih =>
    intro c hc
    simp only [bytesToHex, List.mem_cons] at hc
    rcases hc with h | h | h
    · subst h
      exact hexDigit_mem _ ((Nat.div_lt_iff_lt_mul (by norm_num)).mpr
        (by have := hb b (by simp); omega))
    · subst h
      exact hexDigit_mem _ (Nat.mod_lt _ (by norm_num))
    · exact ih (fun x hx => hb x (by simp [hx])) c h

/-- C2 counterexample: at `T0 = 2024-01-01T00:00:00Z` (epoch microseconds
1704067200000000) a credential without expiry renders the instant
`T0 + 36500 days`, which lies 24 days — far more than one second — before
`T0` plus 100 calendar years (2124-01-01T00:00:00Z). -/
theorem expires_display_not_within_1s_of_100_years :
    ¬ ((expiryDateInstant none 1704067200000000 -
        addCalendarYears 1704067200000000 100).natAbs ≤ usecPerSec.toNat) := by
  decide

/-- C2 amended: for a credential with no expiry the rendered instant is
exactly `now` plus 36500 days (the source's `timedelta(days=365 * 100)`,
about 24 days short of 100 calendar years); for a credential with an expiry
set the rendering is exactly the stored expiry in ISO 8601. -/
theorem expires_as_iso8601_cases (t : APIToken) (now : Int) :
    (t.expires = none →
      t.expires_as_iso8601 now = isoformat (now + 36500 * usecPerDay)) ∧
    (∀ e, t.expires = some e → t.expires_as_iso8601 now = isoformat e) := by
  constructor
  · intro h
    simp [APIToken.expires_as_iso8601, expiryDateInstant, h]
  · intro e h
    simp [APIToken.expires_as_iso8601, expiryDateInstant, h]

/-- Witness for the amended C2 at concrete credentials, one without and one
with a stored expiry. -/
theorem expires_as_iso8601_cases_witness :
    (⟨1, none, "apt_x", 42, "tok", 0, none⟩ : APIToken).expires_as_iso8601 0 =
      isoformat (0 + 36500 * usecPerDay) ∧
    (⟨1, none, "apt_x", 42, "tok", 0, some 7⟩ : APIToken).expires_as_iso8601 0 =
      isoformat 7 :=
  ⟨(expires_as_iso8601_cases ⟨1, none, "apt_x", 42, "tok", 0, none⟩ 0).1 rfl,
   (expires_as_iso8601_cases ⟨1, none, "apt_x", 42, "tok", 0, some 7⟩ 0).2 7 rfl⟩

/-- C3: a token generated from 16 random bytes is exactly 32 characters,
each a lowercase hexadecimal digit, and inserting a generated token under
the column's uniqueness constraint preserves the invariant that all stored
tokens have length 32 and are pairwise distinct. -/
theorem generate_secret_token_hex32_unique
    (randomBytes : List Nat) (h16 : randomBytes.length = 16)
    (hb : ∀ b ∈ randomBytes, b < 256)
    (store store' : List String) (hok : TokenStoreOk store)
    (hins : insertToken store (generate_secret_token randomBytes) = some store') :
    (generate_secret_token randomBytes).length = 32 ∧
    (∀ c ∈ (generate_secret_token randomBytes).toList, c ∈ hexAlphabet) ∧
    TokenStoreOk store' := by
  have hlen : (generate_secret_token randomBytes).length = 32 := by
    simp [generate_secret_token, token_hex, String.length, bytesToHex_length, h16]
  refine ⟨hlen, ?_, ?_⟩
  · intro c hc
    simp only [generate_secret_token, token_hex, String.toList] at hc
    exact bytesToHex_mem randomBytes hb c hc
  · by_cases hmem : generate_secret_token randomBytes ∈ store
    · simp [insertToken, hmem] at hins
    · simp only [insertToken, hmem, if_neg, if_false, Option.some_inj] at hins
      subst hins
      refine ⟨List.nodup_cons.mpr ⟨hmem, hok.1⟩, ?_⟩
      intro s hs
      rcases List.mem_cons.mp hs with h | h
      · subst h; exact hlen
      · exact hok.2 s h

/-- Witness for C3 at a concrete 16-byte draw inserted into an empty store. -/
theorem generate_secret_token_hex32_unique_witness :
    (generate_secret_token
      [0, 17, 34, 51, 68, 85, 102, 119, 136, 153, 170, 187, 204, 221, 238, 255]).length = 32 ∧
    (∀ c ∈ (generate_secret_token
      [0, 17, 34, 51, 68, 85, 102, 119, 136, 153, 170, 187, 204, 221, 238, 255]).toList,
      c ∈ hexAlphabet) ∧
    TokenStoreOk [generate_secret_token
      [0, 17, 34, 51, 68, 85, 102, 119, 136, 153, 170, 187, 204, 221, 238, 255]] :=
  generate_secret_token_hex32_unique
    [0, 17, 34, 51, 68, 85, 102, 119, 136, 153, 170, 187, 204, 221, 238, 255]
    (by decide) (by decide) [] _ ⟨List.nodup_nil, by simp⟩ rfl

/-- C4 counterexample: a webhook registration may be persisted with a null
`id` (the field is declared `null=True` and carries no default), and the
declared random source `self.id` then resolves to a null value — not to the
record's primary storage key, which is the separate `uuid` field (here 7). -/
theorem webhook_rand_src_resolves_null :
    resolveSrc
      (OutboundWebhook.getattr
        ⟨none, 7, "whk_x", "n", "created", "core.models.Snapshot",
         "https://example.com/hook", 0⟩)
      OutboundWebhook.abid_rand_src = some none ∧
    OutboundWebhook.pk
      ⟨none, 7, "whk_x", "n", "created", "core.models.Snapshot",
       "https://example.com/hook", 0⟩ = 7 :=
  ⟨rfl, rfl⟩

/-- C4 amended: for the credential type the declared random source `self.id`
resolves to the record's primary storage key, non-null for every record; for
the webhook registration type `self.id` resolves to the nullable secondary
`id` field — not the primary key, which is `uuid` — so a null resolution is
reachable there. -/
theorem abid_rand_src_resolution (t : APIToken) (w : OutboundWebhook) :
    resolveSrc t.getattr APIToken.abid_rand_src = some (some (.vNat t.pk)) ∧
    resolveSrc w.getattr OutboundWebhook.abid_rand_src = some (w.id.map .vNat) :=
  ⟨rfl, rfl⟩

/-- C5: the credential record type declares the fixed identifier type tag
`apt_` and the webhook registration type declares `whk_`, each a 3–4
character constant for its record type. -/
theorem abid_type_tags_declared :
    APIToken.abid_tag = "apt_" ∧ OutboundWebhook.abid_tag = "whk_" ∧
    (3 ≤ APIToken.abid_tag.length ∧ APIToken.abid_tag.length ≤ 4) ∧
    (3 ≤ OutboundWebhook.abid_tag.length ∧ OutboundWebhook.abid_tag.length ≤ 4) := by
  decide

/-- C6: the credential declares its secret token as content/URI source and
the issuing user's id as subtype source; the webhook registration declares
the target endpoint URL as content/URI source and the trigger reference as
subtype source; both declare the creation timestamp as timestamp source —
and each declared source resolves to the named field of the record. -/
theorem abid_src_declarations (t : APIToken) (w : OutboundWebhook) :
    (APIToken.abid_uri_src = "self.token" ∧
      resolveSrc t.getattr APIToken.abid_uri_src = some (some (.vStr t.token))) ∧
    (APIToken.abid_subtype_src = "self.created_by_id" ∧
      resolveSrc t.getattr APIToken.abid_subtype_src =
        some (some (.vNat t.created_by_id))) ∧
    (OutboundWebhook.abid_uri_src = "self.endpoint" ∧
      resolveSrc w.getattr OutboundWebhook.abid_uri_src =
        some (some (.vStr w.endpoint))) ∧
    (OutboundWebhook.abid_subtype_src = "self.ref" ∧
      resolveSrc w.getattr OutboundWebhook.abid_subtype_src =
        some (some (.vStr w.ref))) ∧
    (APIToken.abid_ts_src = "self.created" ∧
      resolveSrc t.getattr APIToken.abid_ts_src =
        some (some (.vInstant t.created))) ∧
    (OutboundWebhook.abid_ts_src = "self.created" ∧
      resolveSrc w.getattr OutboundWebhook.abid_ts_src =
        some (some (.vInstant w.created))) :=
  ⟨⟨rfl, rfl⟩, ⟨rfl, rfl⟩, ⟨rfl, rfl⟩, ⟨rfl, rfl⟩, ⟨rfl, rfl⟩, ⟨rfl, rfl⟩⟩

/-- C7: the external projection of every credential contains the type tag,
the record id, the ABID, the creating principal's id, the creation timestamp
rendered as ISO 8601 and the expiry rendered as ISO 8601. -/
theorem json_projection_contains_required_keys (t : APIToken) (now : Int) :
    (t.json now).lookup "TYPE" = some "APIToken" ∧
    (t.json now).lookup "id" = some (toString t.pk) ∧
    (t.json now).lookup "abid" = some t.abid ∧
    (t.json now).lookup "created_by_id" = some (toString t.created_by_id) ∧
    (t.json now).lookup "created" = some (isoformat t.created) ∧
    (t.json now).lookup "expires" = some (t.expires_as_iso8601 now) :=
  ⟨rfl, rfl, rfl, rfl, rfl, rfl⟩

/-- C9: the external projection of every credential exposes the full
plaintext secret under the key `token`. -/
theorem json_exposes_plaintext_token (t : APIToken) (now : Int) :
    (t.json now).lookup "token" = some t.token :=
  rfl

/-- C10: producing the debug representation fails on every credential
instance: the f-string reads `self.user.username`, but the record's principal
foreign key is named `created_by` and no `user` attribute exists, so the
attribute lookup aborts the rendering before any string is produced. -/
theorem repr_user_lookup_fails (t : APIToken) : t.reprStr = none :=
  rfl
